import Mathlib

/-!
Verification of the fire-monitoring map application
(`src/app/page.tsx` and `src/app/api/inpe-kml/route.ts`).

The embedding models the client pipeline
(parse → point filter → annotate → reconcile overlay swap),
the layer-visibility control bookkeeping, the refresh scheduler and the
proxy route.  Conventions:

* The DOM/KML parser and the `@tmcw/togeojson` conversion are third-party
  libraries; their outcome is a value of `ParseOutcome` (either a parse
  failure, as detected by the `parsererror` check, or a normalized
  feature collection).  The repository's own code is modelled from that
  point on.
* Leaflet layers are identified by their stamp ids (`Nat`).  Adding a
  layer group to the map also adds each of its children to the map
  (leaflet `LayerGroup.onAdd` semantics); the layers control keys its
  entries by the stamp id of the exact object passed to
  `addOverlay`/`removeLayer`.
* The React `useState` cell `fireDataLayers` is modelled faithfully to
  the registered closures: the mount effect (whose dependencies never
  change, and whose `!mapRef.current` guard blocks re-initialization)
  registers the first-render closure of `updateFireData` both for the
  immediate call and for the interval, and that closure captures the
  initial cell value `[]`.  Every invocation therefore iterates its
  removal loop over that captured empty list
  (`closureFireDataLayers`); the `setFireDataLayers` write still
  happens and is recorded in the state field `fireDataLayers`, but no
  registered callback ever reads it.
* JavaScript numbers occurring in style literals are modelled as exact
  rationals; they are only ever compared for equality.
* All functions are total: a thrown-and-caught JS exception is a `none`
  result, so "no exception escapes" is totality of the model.
-/

/-- Coordinates of a point feature.  The code never computes with them;
they are carried through `pointToLayer` unchanged. -/
structure LatLng where
  lat : Int
  lng : Int
deriving DecidableEq

/-- Geometry of a GeoJSON feature produced by the togeojson conversion:
a geometry type tag plus (for points) its coordinates. -/
structure Geometry where
  typ : String
  coords : LatLng
deriving DecidableEq

/-- Properties of a converted feature, as read by the code:
`name`, `description` and `styleUrl`.  `none` models a missing property;
`some` of the empty string models a present-but-falsy value. -/
structure Props where
  name : Option String
  description : Option String
  styleUrl : Option String
deriving DecidableEq

/-- A GeoJSON feature: optional geometry (the code reads
`feature.geometry?.type`) and its properties. -/
structure Feature where
  geometry : Option Geometry
  props : Props
deriving DecidableEq

/-- A GeoJSON feature collection. -/
structure FeatureCollection where
  features : List Feature
deriving DecidableEq

/-- Outcome of DOM-parsing a KML body and converting it to GeoJSON:
the `parsererror` branch of `processKMLText` throws (modelled `failed`),
otherwise the normalized collection is available. -/
inductive ParseOutcome where
  | failed (msg : String)
  | ok (fc : FeatureCollection)
deriving DecidableEq

/-- Outcome of one proxied fetch in `fetchAndProcessFireKML`:
the fetch may reject (`netError`), return a non-ok status
(`httpError`, which the code turns into a thrown error), or deliver a
body whose parse outcome is `body`. -/
inductive FetchOutcome where
  | netError
  | httpError (status : Nat)
  | ok (body : ParseOutcome)
deriving DecidableEq

/-- Test used by `processKMLText`:
`feature.geometry?.type === 'Point'`. -/
def isPoint (f : Feature) : Bool :=
  match f.geometry with
  | some g => g.typ == "Point"
  | none => false

/-- The point-feature filter of `processKMLText`
(`geojson.features.filter(... type === 'Point')` rebuilt into a
collection). -/
def filterPoints (c : FeatureCollection) : FeatureCollection :=
  { features := c.features.filter isPoint }

/-- Substring containment, JS `String.prototype.includes`. -/
def hasSubstr (hay needle : String) : Bool :=
  go needle.toList hay.toList
where
  go (n : List Char) : List Char → Bool
    | [] => n.isPrefixOf []
    | c :: cs => n.isPrefixOf (c :: cs) || go n cs

/-- Attempt of the regex
`<td>LABEL</td><td>([^<]+)</td>` at one fixed position: the literal
pattern `pat` (everything before the capture group), then a non-empty
greedy run of characters other than a left angle bracket, then the
literal closing cell tag.  Backtracking into the greedy run cannot
succeed because the run is bounded by the next left angle bracket, so
this match is deterministic, exactly as the JS regex engine behaves. -/
def matchAt (pat : List Char) (cs : List Char) : Option String :=
  if pat.isPrefixOf cs then
    let rest := cs.drop pat.length
    let p := rest.span (fun c => c != '<')
    if p.1.isEmpty then none
    else if ("</td>".toList).isPrefixOf p.2 then some (String.mk p.1)
    else none
  else none

/-- Leftmost match of the table-row regex: positions are tried left to
right, mirroring the JS regex engine's leftmost-match rule
(`String.prototype.match` without the global flag returns the first
match in document order). -/
def scanTd (pat : List Char) : List Char → Option String
  | [] => none
  | c :: cs =>
    match matchAt pat (c :: cs) with
    | some v => some v
    | none => scanTd pat cs

/-- Extraction of one labelled table cell from a description string:
the model of `desc.match(/<td>LABEL<\/td><td>([^<]+)<\/td>/)?.[1]`. -/
def tdMatch (label : String) (desc : String) : Option String :=
  scanTd ("<td>" ++ label ++ "</td><td>").toList desc.toList

/-- Default marker label used by the popup builder
(`feature.properties.name || 'Foco de Incêndio'`). -/
def defaultLabel : String := "Foco de Incêndio"

/-- Annotated hotspot record extracted by `onEachFeature` in
`processKMLText`: the popup title plus the four optional extracted
fields.  A field is `none` exactly when the code appends no line for
it. -/
structure HotspotRecord where
  label : String
  dataHora : Option String
  satelite : Option String
  municipio : Option String
  estado : Option String
deriving DecidableEq

/-- The feature annotator: label fallback via JS truthiness of `name`,
and field extraction guarded by JS truthiness of `description`
(an absent or empty description yields no extracted fields). -/
def annotateProps (p : Props) : HotspotRecord :=
  let desc : Option String :=
    match p.description with
    | some d => if d = "" then none else some d
    | none => none
  { label :=
      match p.name with
      | some n => if n = "" then defaultLabel else n
      | none => defaultLabel
  , dataHora := desc.bind (tdMatch "Data Hora UTC")
  , satelite := desc.bind (tdMatch "Satélite")
  , municipio := desc.bind (tdMatch "Município")
  , estado := desc.bind (tdMatch "Estado") }

/-- A rendered hotspot marker: position (from `pointToLayer`) and the
annotated record bound as its popup. -/
structure Marker where
  pos : LatLng
  record : HotspotRecord
deriving DecidableEq

/-- Marker built for one point feature.  The position default is never
reached on features retained by the point filter, which all carry a
geometry. -/
def markerOfFeature (f : Feature) : Marker :=
  { pos := (f.geometry.map Geometry.coords).getD ⟨0, 0⟩
  , record := annotateProps f.props }

/-- Body of `processKMLText` after parsing: filter to point features;
zero point features yield the empty layer `L.geoJSON()` (a valid,
empty result, not a failure), otherwise a layer holding one marker per
point feature. -/
def processKML : ParseOutcome → Option (List Marker)
  | .failed _ => none
  | .ok fc =>
    let pts := (filterPoints fc).features
    if pts.length = 0 then some []
    else some (pts.map markerOfFeature)

/-- Model of `fetchAndProcessFireKML`: every failure path
(fetch rejection, non-ok proxy status, parse error) is caught and
becomes `none`; a delivered body is processed by `processKML`. -/
def fetchAndProcessFireKML : FetchOutcome → Option (List Marker)
  | .netError => none
  | .httpError _ => none
  | .ok body => processKML body

/-- Leaflet path style tuple produced by the farm-KML style callback in
`loadFarmKML`.  JS number literals are modelled as exact rationals. -/
structure PathStyle where
  color : String
  weight : ℚ
  opacity : ℚ
  fillOpacity : ℚ
  fillColor : String
deriving DecidableEq

/-- Default style assigned before any styleUrl test in `loadFarmKML`. -/
def defaultStyle : PathStyle :=
  { color := "#fcb4d4", weight := 3, opacity := 8/10
  , fillOpacity := 2/10, fillColor := "#ffffff" }

/-- Style tuple for a reference containing PolyStyle007: the callback
overwrites color, fillColor, fillOpacity and weight, keeping the
default opacity. -/
def style007 : PathStyle :=
  { defaultStyle with
    color := "#ffffff", fillColor := "#fcb4d4"
  , fillOpacity := 1/10, weight := 2 }

/-- Style tuple for a reference containing PolyStyle0012. -/
def style0012 : PathStyle :=
  { defaultStyle with
    color := "#fcb4d4", fillColor := "#fcb4d4"
  , fillOpacity := 1/10, weight := 2 }

/-- Style tuple for a reference containing PolyStyle00159. -/
def style00159 : PathStyle :=
  { defaultStyle with
    color := "#f0f0f0", fillColor := "#f0f0f0"
  , fillOpacity := 7/100, weight := 3 }

/-- The boundary style resolver of `loadFarmKML`: the base style,
then the if/else-if chain over `feature?.properties?.styleUrl`
(a missing or empty styleUrl is falsy and skips the chain; the
`includes` tests run in source order). -/
def resolveStyle (styleUrl : Option String) : PathStyle :=
  match styleUrl with
  | none => defaultStyle
  | some u =>
    if u = "" then defaultStyle
    else if hasSubstr u "PolyStyle007" then style007
    else if hasSubstr u "PolyStyle0012" then style0012
    else if hasSubstr u "PolyStyle00159" then style00159
    else defaultStyle

/-- Outcome of the proxy's upstream fetch in `route.ts`: the fetch may
throw, or respond with a status, status text, optional content-type
header and a body. -/
inductive UpstreamOutcome where
  | throws
  | responds (status : Nat) (statusText : String)
      (contentType : Option String) (body : String)
deriving DecidableEq

/-- Body of a proxy response: either a JSON error object
(`NextResponse.json(\x7b error ... \x7d)`) or relayed content with a
content type. -/
inductive ProxyBody where
  | jsonError (msg : String)
  | content (contentType : String) (body : String)
deriving DecidableEq

/-- A proxy response: HTTP status plus body. -/
structure ProxyResponse where
  status : Nat
  body : ProxyBody
deriving DecidableEq

/-- Allow-listed host prefix of the proxy
(`url.startsWith('https://dataserver-coids.inpe.br/')`). -/
def allowedHost : String := "https://dataserver-coids.inpe.br/"

/-- JS `String.prototype.startsWith`. -/
def strStarts (s pre : String) : Bool :=
  pre.toList.isPrefixOf s.toList

/-- Default content type substituted by the proxy when the upstream
response carries no content-type header. -/
def kmlMime : String := "application/vnd.google-earth.kml+xml"

/-- The GET handler of `src/app/api/inpe-kml/route.ts`: validate the
`url` query parameter (absent, empty or not on the allow-listed host
is rejected with 400), then relay the upstream outcome.  `response.ok`
is status 200–299. -/
def routeGET (url : Option String) (up : UpstreamOutcome) : ProxyResponse :=
  match url with
  | none => ⟨400, .jsonError "URL inválida ou não permitida."⟩
  | some u =>
    if u = "" ∨ strStarts u allowedHost = false then
      ⟨400, .jsonError "URL inválida ou não permitida."⟩
    else
      match up with
      | .throws =>
        ⟨500, .jsonError "Erro interno do servidor ao buscar dados do INPE."⟩
      | .responds status stext ct body =>
        if 200 ≤ status ∧ status < 300 then
          ⟨200, .content (ct.getD kmlMime) body⟩
        else
          ⟨status, .jsonError ("Falha ao buscar dados do INPE: " ++ stext)⟩

/-- Display name under which `updateFireData` registers the hotspot
overlay in the layers control. -/
def hotspotOverlayName : String := "Focos de Incêndio (INPE)"

/-- State of the map component relevant to the reconciler:
a fresh-stamp counter, the layers on the map (stamp id with the markers
the layer renders; a group contributes an id of its own with no own
markers, its children are added to the map individually, per leaflet
`LayerGroup.onAdd`), the overlay entries of the layers control
(stamp id and display name), and the `fireDataLayers` state cell
(stamp ids of the individual per-source layers of the last cycle). -/
structure MapState where
  nextId : Nat
  mapLayers : List (Nat × List Marker)
  controlOverlays : List (Nat × String)
  fireDataLayers : List Nat
deriving DecidableEq

/-- State at mount: no overlays registered
(`const overlayMaps = \x7b\x7d`), no fire layers yet. -/
def initState : MapState :=
  { nextId := 0, mapLayers := [], controlOverlays := [], fireDataLayers := [] }

/-- Stamp-id assignment for the freshly created per-source layers:
consecutive ids starting at the current counter. -/
def assignIds : Nat → List (List Marker) → List (Nat × List Marker)
  | _, [] => []
  | n, l :: ls => (n, l) :: assignIds (n + 1) ls

/-- The `fireDataLayers` value captured by the `updateFireData`
closure that the mount effect registers (for the immediate call and
for the interval alike): the initial value of the `useState` cell.
The effect never re-registers a later closure — its dependencies never
change and its guard blocks re-initialization — so every invocation of
the reconciler iterates its removal loop over this captured empty
list, never over the cell's latest value. -/
def closureFireDataLayers : List Nat := []

/-- One reconciliation cycle, the invocation of the registered
`updateFireData` closure, given the settled per-source outcomes:
process every source (`Promise.all` over `fetchAndProcessFireKML`),
drop the `null` results (`validNewLayers`), run the removal loop over
the closure-captured `fireDataLayers` (the initial `[]`, so nothing is
ever removed from the map or the control; removal is keyed by stamp
id in any case, and the stored individual layers were never the
objects registered in the control), then add the new layer group to
the map (group plus children) and register the group in the control
under the hotspot overlay name, and finally perform the
`setFireDataLayers` write into the state cell (which no registered
callback reads back). -/
def updateFireData (results : List FetchOutcome) (st : MapState) : MapState :=
  let newLayers := results.map fetchAndProcessFireKML
  let valid := newLayers.filterMap id
  let withIds := assignIds st.nextId valid
  let gid := st.nextId + valid.length
  let keptMap := st.mapLayers.filter (fun l => !(closureFireDataLayers.contains l.1))
  let keptCtl := st.controlOverlays.filter (fun e => !(closureFireDataLayers.contains e.1))
  { nextId := gid + 1
  , mapLayers := keptMap ++ withIds ++ [(gid, [])]
  , controlOverlays := keptCtl ++ [(gid, hotspotOverlayName)]
  , fireDataLayers := withIds.map Prod.fst }

/-- Markers rendered by a list of map layers. -/
def joinMarkers (ls : List (Nat × List Marker)) : List Marker :=
  (ls.map Prod.snd).flatten

/-- All hotspot markers currently shown on the map. -/
def displayedMarkers (st : MapState) : List Marker :=
  joinMarkers st.mapLayers

/-- The aggregate hotspot records of one cycle: concatenation of the
marker lists of the sources that settled successfully. -/
def cycleAggregate (results : List FetchOutcome) : List Marker :=
  ((results.map fetchAndProcessFireKML).filterMap id).flatten

/-- Number of entries of the layers control named for the hotspot
overlay. -/
def hotspotEntryCount (st : MapState) : Nat :=
  (st.controlOverlays.filter (fun e => e.2 == hotspotOverlayName)).length

/-- Refresh period of the scheduler
(`const REFRESH_INTERVAL = 600 * 1000`). -/
def REFRESH_INTERVAL : Nat := 600 * 1000

/-- Scheduler state: whether the periodic timer of the mount effect is
still registered, and how many times the reconciler has been
invoked. -/
structure SchedState where
  intervalActive : Bool
  invocations : Nat
deriving DecidableEq

/-- Mount: the effect calls `updateFireData()` once immediately and
registers the interval timer. -/
def mountSched : SchedState :=
  { intervalActive := true, invocations := 1 }

/-- One elapsed `REFRESH_INTERVAL` period: the interval timer, when
still registered, fires the reconciler exactly once. -/
def tickSched (s : SchedState) : SchedState :=
  if s.intervalActive then { s with invocations := s.invocations + 1 } else s

/-- Teardown: the effect cleanup calls `clearInterval`, cancelling the
periodic timer. -/
def teardownSched (s : SchedState) : SchedState :=
  { s with intervalActive := false }

/-- Example description text in the INPE table format, carrying an
observation-time row and a satellite row, but no municipality row. -/
def d0 : String :=
  "<td>Data Hora UTC</td><td>2024-08-01 12:00</td><td>Satélite</td><td>AQUA_M-T</td>"

/-- Example description text with two observation-time rows, to test
the first-match-wins policy. -/
def d1 : String :=
  "<td>Data Hora UTC</td><td>2024-08-01 12:00</td><td>Data Hora UTC</td><td>2030-01-01 00:00</td>"

/-- A point feature of source A in the first cycle. -/
def featA1 : Feature :=
  { geometry := some ⟨"Point", ⟨-15, -55⟩⟩
  , props := ⟨some "Foco A1", none, none⟩ }

/-- A point feature of source A in the second cycle. -/
def featA2 : Feature :=
  { geometry := some ⟨"Point", ⟨-16, -56⟩⟩
  , props := ⟨some "Foco A2", none, none⟩ }

/-- A point feature of source B. -/
def featB1 : Feature :=
  { geometry := some ⟨"Point", ⟨-10, -50⟩⟩
  , props := ⟨some "Foco B1", none, none⟩ }

/-- Single-feature collections for the example sources. -/
def fcA1 : FeatureCollection := ⟨[featA1]⟩

/-- Second-cycle collection of source A. -/
def fcA2 : FeatureCollection := ⟨[featA2]⟩

/-- Collection of source B. -/
def fcB1 : FeatureCollection := ⟨[featB1]⟩

/-- A successfully parsed collection with no features at all. -/
def emptyFC : FeatureCollection := ⟨[]⟩

/-- A well-formed proxied address on the allow-listed host. -/
def validUrl : String :=
  "https://dataserver-coids.inpe.br/queimadas/queimadas/focos/kml/estados-48h/focos_frentes_MT.kml"

/-- A style reference containing two known tokens at once. -/
def mixedStyleUrl : String := "#PolyStyle0012-PolyStyle007"

/-- Stamp-id assignment does not change the assigned marker lists. -/
theorem assignIds_map_snd (ls : List (List Marker)) :
    ∀ n, (assignIds n ls).map Prod.snd = ls := by
  induction ls with
  | nil => intro n; rfl
  | cons l ls ih => intro n; simp [assignIds, ih]

/-- Stamp-id assignment hands out the consecutive ids starting at the
current counter. -/
theorem assignIds_map_fst (ls : List (List Marker)) :
    ∀ n, (assignIds n ls).map Prod.fst = List.range' n ls.length := by
  induction ls with
  | nil => intro n; rfl
  | cons l ls ih => intro n; simp [assignIds, ih, List.range'_succ]

/-- The removal loop of a cycle iterates over the closure-captured
empty list, so it filters nothing out. -/
theorem closureFilter_eq_self {α : Type} (ls : List (Nat × α)) :
    ls.filter (fun l => !(closureFireDataLayers.contains l.1)) = ls :=
  List.filter_eq_self.mpr (fun _ _ => rfl)

/-- A reconciliation cycle removes nothing from the map (its removal
loop runs over the closure-captured empty list) and adds the new
generation, so the displayed markers afterwards are the previously
displayed markers followed by the cycle's aggregate. -/
theorem updateFireData_displayed (rs : List FetchOutcome) (st : MapState) :
    displayedMarkers (updateFireData rs st)
      = displayedMarkers st ++ cycleAggregate rs := by
  simp [updateFireData, displayedMarkers, joinMarkers, cycleAggregate,
    assignIds_map_snd, closureFireDataLayers]

/-- Control bookkeeping of one cycle: nothing is removed (the removal
loop runs over the closure-captured empty list, and the stored
individual layers were never control entries anyway), one fresh entry
under the hotspot overlay name is appended. -/
theorem updateFireData_controlOverlays (rs : List FetchOutcome) (st : MapState) :
    (updateFireData rs st).controlOverlays
      = st.controlOverlays
        ++ [(st.nextId + ((rs.map fetchAndProcessFireKML).filterMap id).length,
             hotspotOverlayName)] := by
  show st.controlOverlays.filter (fun e => !(closureFireDataLayers.contains e.1))
      ++ _ = _
  rw [closureFilter_eq_self]

/-- State-cell bookkeeping of one cycle, read off the definition. -/
theorem updateFireData_fireDataLayers (rs : List FetchOutcome) (st : MapState) :
    (updateFireData rs st).fireDataLayers
      = List.range' st.nextId ((rs.map fetchAndProcessFireKML).filterMap id).length := by
  simp [updateFireData, assignIds_map_fst]

/-- When every per-source result of a cycle is a failure, the cycle
contributes no valid layer. -/
theorem allFailed_filterMap (rs : List FetchOutcome)
    (h : ∀ r ∈ rs, fetchAndProcessFireKML r = none) :
    (rs.map fetchAndProcessFireKML).filterMap id = [] := by
  induction rs with
  | nil => rfl
  | cons r rs ih =>
    simp [h r (by simp), ih (fun x hx => h x (by simp [hx]))]

/-- C1: the claim states that after every completed reconciliation
cycle the layers control holds exactly one entry named for the hotspot
overlay.  The code registers a fresh aggregate layer group in the
control each cycle, while the removal loop never matches a registered
entry (it iterates the closure-captured empty list, and the stored
individual layers were never registered anyway): whatever the
per-source outcomes, after two completed cycles the control holds two
entries named for the hotspot overlay. -/
theorem c1_duplicate_control_entries (rs₁ rs₂ : List FetchOutcome) :
    hotspotEntryCount (updateFireData rs₂ (updateFireData rs₁ initState)) = 2 := by
  simp [hotspotEntryCount, updateFireData_controlOverlays, initState]

/-- C2: when every per-source fetch-and-process step of a cycle fails,
the cycle completes (no exception escapes) and the previously
displayed hotspot markers are exactly the markers displayed
afterwards: the removal loop runs over the closure-captured empty
list, so nothing is removed, and the failed cycle contributes an
empty group — the overlay is left intact, the map is not blanked. -/
theorem c2_total_failure_keeps_overlay
    (st : MapState) (rs : List FetchOutcome)
    (h : ∀ r ∈ rs, fetchAndProcessFireKML r = none) :
    displayedMarkers (updateFireData rs st) = displayedMarkers st
    ∧ cycleAggregate rs = [] := by
  have hnil := allFailed_filterMap rs h
  have hagg : cycleAggregate rs = [] := by simp [cycleAggregate, hnil]
  refine ⟨?_, hagg⟩
  rw [updateFireData_displayed, hagg, List.append_nil]

/-- C2 witness: a state already displaying one hotspot marker goes
through a cycle in which the only source fails; the marker is still
displayed afterwards. -/
theorem c2_total_failure_witness :
    displayedMarkers
        (updateFireData [FetchOutcome.netError]
          (updateFireData [FetchOutcome.ok (ParseOutcome.ok fcB1)] initState))
      = displayedMarkers
          (updateFireData [FetchOutcome.ok (ParseOutcome.ok fcB1)] initState)
    ∧ cycleAggregate [FetchOutcome.netError] = [] :=
  c2_total_failure_keeps_overlay
    (updateFireData [FetchOutcome.ok (ParseOutcome.ok fcB1)] initState)
    [FetchOutcome.netError]
    (by intro r hr; rw [List.mem_singleton.mp hr]; rfl)

/-- A successfully fetched and parsed source always processes to the
annotated markers of its point features (also when there are none). -/
theorem fetchAndProcess_ok (fc : FeatureCollection) :
    fetchAndProcessFireKML (FetchOutcome.ok (ParseOutcome.ok fc))
      = some ((filterPoints fc).features.map markerOfFeature) := by
  show processKML (ParseOutcome.ok fc) = _
  unfold processKML
  by_cases h : (filterPoints fc).features.length = 0
  · simp [h, List.length_eq_zero.mp h]
  · simp [h]

/-- C3: reconciling sources A (success) and B (any failure: network
error, non-success status, or parse error) from a state with no
previous hotspot layers displays exactly the annotated records of A's
point features; the aggregate likewise equals A's records, B
contributing nothing, and the reconciler is a total function, so no
exception escapes. -/
theorem c3_failed_source_contributes_nothing
    (fc : FeatureCollection) (b : FetchOutcome)
    (hb : fetchAndProcessFireKML b = none) :
    displayedMarkers
        (updateFireData [FetchOutcome.ok (ParseOutcome.ok fc), b] initState)
      = (filterPoints fc).features.map markerOfFeature
    ∧ cycleAggregate [FetchOutcome.ok (ParseOutcome.ok fc), b]
      = (filterPoints fc).features.map markerOfFeature := by
  have hagg :
      cycleAggregate [FetchOutcome.ok (ParseOutcome.ok fc), b]
        = (filterPoints fc).features.map markerOfFeature := by
    simp [cycleAggregate, fetchAndProcess_ok, hb]
  refine ⟨?_, hagg⟩
  rw [updateFireData_displayed, hagg]
  rfl

/-- C3 witness: source A delivering one point feature together with a
network-failed source B. -/
theorem c3_witness :
    fetchAndProcessFireKML FetchOutcome.netError = none
    ∧ displayedMarkers
        (updateFireData
          [FetchOutcome.ok (ParseOutcome.ok fcA1), FetchOutcome.netError]
          initState)
      = (filterPoints fcA1).features.map markerOfFeature :=
  ⟨rfl,
    (c3_failed_source_contributes_nothing fcA1 FetchOutcome.netError rfl).1⟩

/-- C4 counterexample: source B's marker is displayed after a first
cycle; in the second cycle B's fetch succeeds with zero point features
(a valid empty result, `some []`, distinct from failure), yet B's
previously displayed marker is still shown afterwards — the empty
successful refresh does not replace the source's previous markers with
none, because the registered reconciler closure never removes any
previously displayed layer. -/
theorem c4_cex_empty_refresh_keeps_markers :
    markerOfFeature featB1
      ∈ displayedMarkers
          (updateFireData [FetchOutcome.ok (ParseOutcome.ok fcB1)] initState)
    ∧ fetchAndProcessFireKML (FetchOutcome.ok (ParseOutcome.ok emptyFC)) = some []
    ∧ markerOfFeature featB1
        ∈ displayedMarkers
            (updateFireData [FetchOutcome.ok (ParseOutcome.ok emptyFC)]
              (updateFireData [FetchOutcome.ok (ParseOutcome.ok fcB1)]
                initState)) := by
  refine ⟨?_, rfl, ?_⟩ <;> decide

/-- C4 amended: a successful fetch with zero point features is a valid
empty result (`some []`), distinct from the `none` of a network,
status or parse failure, and a failed source's previously displayed
markers are indeed kept — but so are the markers of an empty-but-
successful source: the registered reconciler closure never removes any
previously displayed marker (its captured previous-generation list is
permanently empty), so after any cycle the display is the previous
display plus this cycle's aggregate, and an empty success, like a
failure, merely contributes nothing to that aggregate. -/
theorem c4_empty_success_vs_failure :
    (∀ fc : FeatureCollection, (filterPoints fc).features = [] →
        fetchAndProcessFireKML (FetchOutcome.ok (ParseOutcome.ok fc)) = some [])
    ∧ (∀ s, fetchAndProcessFireKML (FetchOutcome.httpError s) = none)
    ∧ fetchAndProcessFireKML FetchOutcome.netError = none
    ∧ (∀ m, fetchAndProcessFireKML (FetchOutcome.ok (ParseOutcome.failed m)) = none)
    ∧ (∀ (rs : List FetchOutcome) (st : MapState),
        displayedMarkers (updateFireData rs st)
          = displayedMarkers st ++ cycleAggregate rs) := by
  refine ⟨?_, fun s => rfl, rfl, fun m => rfl, updateFireData_displayed⟩
  intro fc h
  rw [fetchAndProcess_ok, h]
  rfl

/-- C4 witness: the empty-but-successful branch at the empty
collection, and the keep-everything equation at a concrete state with
one displayed marker and one failing source. -/
theorem c4_witness :
    fetchAndProcessFireKML (FetchOutcome.ok (ParseOutcome.ok emptyFC)) = some []
    ∧ displayedMarkers
        (updateFireData [FetchOutcome.netError]
          (updateFireData [FetchOutcome.ok (ParseOutcome.ok fcA1)] initState))
      = displayedMarkers
          (updateFireData [FetchOutcome.ok (ParseOutcome.ok fcA1)] initState)
        ++ cycleAggregate [FetchOutcome.netError] :=
  ⟨c4_empty_success_vs_failure.1 emptyFC rfl,
    c4_empty_success_vs_failure.2.2.2.2 [FetchOutcome.netError]
      (updateFireData [FetchOutcome.ok (ParseOutcome.ok fcA1)] initState)⟩

/-- C5: for every feature whose description is the example text `d0`
containing an observation-time row and a satellite row, the annotated
record carries exactly those values; the municipality pattern matches
no row, so the field is absent; and on the two-row text `d1` the first
match in document order wins. -/
theorem c5_field_extraction :
    (∀ p : Props, p.description = some d0 →
        (annotateProps p).dataHora = some "2024-08-01 12:00"
        ∧ (annotateProps p).satelite = some "AQUA_M-T"
        ∧ (annotateProps p).municipio = none)
    ∧ (∀ p : Props, p.description = some d1 →
        (annotateProps p).dataHora = some "2024-08-01 12:00") := by
  constructor
  · rintro ⟨n, d, su⟩ hp
    have hd : d = some d0 := hp
    subst hd
    exact ⟨rfl, rfl, rfl⟩
  · rintro ⟨n, d, su⟩ hp
    have hd : d = some d1 := hp
    subst hd
    rfl

/-- C5 witness: the extraction at a concrete feature property set. -/
theorem c5_witness :
    (annotateProps ⟨some "F", some d0, none⟩).dataHora = some "2024-08-01 12:00"
    ∧ (annotateProps ⟨some "F", some d0, none⟩).satelite = some "AQUA_M-T"
    ∧ (annotateProps ⟨some "F", some d0, none⟩).municipio = none
    ∧ (annotateProps ⟨some "F", some d1, none⟩).dataHora = some "2024-08-01 12:00" :=
  ⟨(c5_field_extraction.1 ⟨some "F", some d0, none⟩ rfl).1,
    (c5_field_extraction.1 ⟨some "F", some d0, none⟩ rfl).2.1,
    (c5_field_extraction.1 ⟨some "F", some d0, none⟩ rfl).2.2,
    c5_field_extraction.2 ⟨some "F", some d1, none⟩ rfl⟩

/-- C6: a feature with no description text and no name (nothing better
to derive a label from) is annotated with the default fallback label,
and all four optional fields are absent; the same holds for a
present-but-empty name, which is falsy in the source. -/
theorem c6_label_fallback (p : Props)
    (hd : p.description = none)
    (hn : p.name = none ∨ p.name = some "") :
    annotateProps p = ⟨defaultLabel, none, none, none, none⟩ := by
  rcases p with ⟨n, d, su⟩
  have hd' : d = none := hd
  subst hd'
  rcases hn with h | h <;>
    · have hn' : n = _ := h
      subst hn'
      rfl

/-- C6 witness: the annotator at a feature with no properties set. -/
theorem c6_witness :
    (Props.mk none none none).description = none
    ∧ annotateProps ⟨none, none, none⟩ = ⟨defaultLabel, none, none, none, none⟩ :=
  ⟨rfl, c6_label_fallback ⟨none, none, none⟩ rfl (Or.inl rfl)⟩

/-- C7 counterexample: for an allow-listed address and an upstream
success with status 204, the proxy responds with status 200, not with
the upstream status relayed verbatim as the claim states. -/
theorem c7_cex_success_status_not_relayed :
    routeGET (some validUrl)
        (UpstreamOutcome.responds 204 "No Content" none "corpo")
      = ⟨200, ProxyBody.content kmlMime "corpo"⟩
    ∧ (200 : Nat) ≠ 204 := by
  refine ⟨?_, by decide⟩
  rfl

/-- C7 amended: a missing `url` parameter or one not starting with the
allow-listed host prefix yields HTTP 400; an upstream success (status
200–299) yields HTTP 200 — not the upstream status — with the
upstream body verbatim and the upstream content type when present (a
default KML content type otherwise); a non-success upstream status is
relayed as the response status with a structured error body; an
internal fault yields HTTP 500 with a generic message. -/
theorem c7_proxy_behaviour :
    (∀ up, routeGET none up
        = ⟨400, ProxyBody.jsonError "URL inválida ou não permitida."⟩)
    ∧ (∀ u up, strStarts u allowedHost = false →
        routeGET (some u) up
          = ⟨400, ProxyBody.jsonError "URL inválida ou não permitida."⟩)
    ∧ (∀ u s stext ct body, strStarts u allowedHost = true →
        200 ≤ s → s < 300 →
        routeGET (some u) (UpstreamOutcome.responds s stext ct body)
          = ⟨200, ProxyBody.content (ct.getD kmlMime) body⟩)
    ∧ (∀ u s stext ct body, strStarts u allowedHost = true →
        ¬ (200 ≤ s ∧ s < 300) →
        routeGET (some u) (UpstreamOutcome.responds s stext ct body)
          = ⟨s, ProxyBody.jsonError ("Falha ao buscar dados do INPE: " ++ stext)⟩)
    ∧ (∀ u, strStarts u allowedHost = true →
        routeGET (some u) UpstreamOutcome.throws
          = ⟨500, ProxyBody.jsonError
              "Erro interno do servidor ao buscar dados do INPE."⟩) := by
  have hne : ∀ u : String, strStarts u allowedHost = true → ¬ (u = "") := by
    intro u hu h
    subst h
    exact absurd hu (by decide)
  refine ⟨fun up => rfl, ?_, ?_, ?_, ?_⟩
  · intro u up hu
    simp [routeGET, hu]
  · intro u s stext ct body hu h1 h2
    simp [routeGET, hne u hu, hu, h1, h2]
  · intro u s stext ct body hu hns
    simp [routeGET, hne u hu, hu, hns]
  · intro u hu
    simp [routeGET, hne u hu, hu]

/-- C7 witness: the amended statement at concrete requests. -/
theorem c7_witness :
    routeGET none UpstreamOutcome.throws
      = ⟨400, ProxyBody.jsonError "URL inválida ou não permitida."⟩
    ∧ routeGET (some "https://example.com/x") UpstreamOutcome.throws
      = ⟨400, ProxyBody.jsonError "URL inválida ou não permitida."⟩
    ∧ routeGET (some validUrl)
        (UpstreamOutcome.responds 200 "OK" (some "text/xml") "dados")
      = ⟨200, ProxyBody.content "text/xml" "dados"⟩
    ∧ routeGET (some validUrl)
        (UpstreamOutcome.responds 404 "Not Found" none "")
      = ⟨404, ProxyBody.jsonError "Falha ao buscar dados do INPE: Not Found"⟩
    ∧ routeGET (some validUrl) UpstreamOutcome.throws
      = ⟨500, ProxyBody.jsonError
          "Erro interno do servidor ao buscar dados do INPE."⟩ :=
  ⟨c7_proxy_behaviour.1 UpstreamOutcome.throws,
    c7_proxy_behaviour.2.1 "https://example.com/x" UpstreamOutcome.throws
      (by decide),
    c7_proxy_behaviour.2.2.1 validUrl 200 "OK" (some "text/xml") "dados"
      (by decide) (by decide) (by decide),
    c7_proxy_behaviour.2.2.2.1 validUrl 404 "Not Found" none ""
      (by decide) (by decide),
    c7_proxy_behaviour.2.2.2.2 validUrl (by decide)⟩

/-- C8: the point filter returns an already-point-only collection
unchanged, its output contains exactly the input features whose
geometry type is Point, and it is idempotent on every collection. -/
theorem c8_filter_idempotent :
    (∀ c : FeatureCollection, (∀ f ∈ c.features, isPoint f = true) →
        filterPoints c = c)
    ∧ (∀ (c : FeatureCollection) (f : Feature),
        f ∈ (filterPoints c).features ↔ f ∈ c.features ∧ isPoint f = true)
    ∧ (∀ c : FeatureCollection, filterPoints (filterPoints c) = filterPoints c) := by
  refine ⟨?_, ?_, ?_⟩
  · intro c h
    rcases c with ⟨fs⟩
    simp only [filterPoints, FeatureCollection.mk.injEq]
    exact List.filter_eq_self.mpr h
  · intro c f
    simp [filterPoints, List.mem_filter]
  · intro c
    rcases c with ⟨fs⟩
    simp [filterPoints, List.filter_filter]

/-- C8 witness: the filter applied to a concrete point-only
collection. -/
theorem c8_witness :
    (∀ f ∈ fcA1.features, isPoint f = true)
    ∧ filterPoints fcA1 = fcA1
    ∧ (featA1 ∈ (filterPoints fcA1).features
        ↔ featA1 ∈ fcA1.features ∧ isPoint featA1 = true) :=
  ⟨by decide, c8_filter_idempotent.1 fcA1 (by decide),
    c8_filter_idempotent.2.1 fcA1 featA1⟩

/-- C9 counterexample: a style reference containing the known token
PolyStyle0012 (together with PolyStyle007) resolves to the
PolyStyle007 tuple, not to the PolyStyle0012 tuple as the claim, read
for the contained token PolyStyle0012, states. -/
theorem c9_cex_token_precedence :
    hasSubstr mixedStyleUrl "PolyStyle0012" = true
    ∧ resolveStyle (some mixedStyleUrl) = style007
    ∧ style007 ≠ style0012 := by
  refine ⟨by decide, ?_, by decide⟩
  rfl

/-- C9 amended: the known tokens are tested in the fixed source order
PolyStyle007, PolyStyle0012, PolyStyle00159, and a reference resolves
to the tuple of the first contained token; a missing reference or one
containing no known token resolves to the default tuple, whose stroke
and fill colors are distinct. -/
theorem c9_style_resolution :
    (∀ u, hasSubstr u "PolyStyle007" = true →
        resolveStyle (some u) = style007)
    ∧ (∀ u, hasSubstr u "PolyStyle007" = false →
        hasSubstr u "PolyStyle0012" = true →
        resolveStyle (some u) = style0012)
    ∧ (∀ u, hasSubstr u "PolyStyle007" = false →
        hasSubstr u "PolyStyle0012" = false →
        hasSubstr u "PolyStyle00159" = true →
        resolveStyle (some u) = style00159)
    ∧ (∀ u, hasSubstr u "PolyStyle007" = false →
        hasSubstr u "PolyStyle0012" = false →
        hasSubstr u "PolyStyle00159" = false →
        resolveStyle (some u) = defaultStyle)
    ∧ resolveStyle none = defaultStyle
    ∧ defaultStyle.color ≠ defaultStyle.fillColor := by
  have hne : ∀ (u : String) (tok : String), tok ≠ "" →
      hasSubstr u tok = true → ¬ (u = "") := by
    intro u tok htok hu h
    subst h
    rcases tok with ⟨l⟩
    cases l with
    | nil => exact htok rfl
    | cons c cs => simp [hasSubstr, hasSubstr.go, List.isPrefixOf] at hu
  refine ⟨?_, ?_, ?_, ?_, rfl, by decide⟩
  · intro u h
    simp [resolveStyle, hne u _ (by decide) h, h]
  · intro u h7 h12
    simp [resolveStyle, hne u _ (by decide) h12, h7, h12]
  · intro u h7 h12 h159
    simp [resolveStyle, hne u _ (by decide) h159, h7, h12, h159]
  · intro u h7 h12 h159
    by_cases hu : u = ""
    · subst hu; rfl
    · simp [resolveStyle, hu, h7, h12, h159]

/-- C9 witness: resolution of the three known tokens and of an unknown
reference at concrete style references. -/
theorem c9_witness :
    resolveStyle (some "#PolyStyle007x") = style007
    ∧ resolveStyle (some "#PolyStyle0012x") = style0012
    ∧ resolveStyle (some "#PolyStyle00159") = style00159
    ∧ resolveStyle (some "#outroEstilo") = defaultStyle
    ∧ defaultStyle.color ≠ defaultStyle.fillColor :=
  ⟨c9_style_resolution.1 "#PolyStyle007x" (by decide),
    c9_style_resolution.2.1 "#PolyStyle0012x" (by decide) (by decide),
    c9_style_resolution.2.2.1 "#PolyStyle00159" (by decide) (by decide)
      (by decide),
    c9_style_resolution.2.2.2.1 "#outroEstilo" (by decide) (by decide)
      (by decide),
    c9_style_resolution.2.2.2.2.2⟩

/-- C10: the scheduler invokes the reconciler once immediately at
mount, then exactly once per elapsed refresh period of 600 000 ms
while the timer is registered — one mount invocation plus three
periodic invocations across three periods — and never again after
teardown cancels the timer. -/
theorem c10_scheduler_cadence :
    mountSched.invocations = 1
    ∧ (∀ n : Nat, (tickSched^[n] mountSched).invocations = 1 + n)
    ∧ (∀ (s : SchedState) (n : Nat),
        (tickSched^[n] (teardownSched s)).invocations = s.invocations)
    ∧ (tickSched^[3] mountSched).invocations = 1 + 3
    ∧ REFRESH_INTERVAL = 600000 := by
  have hrun : ∀ n : Nat, tickSched^[n] mountSched
      = { intervalActive := true, invocations := 1 + n } := by
    intro n
    induction n with
    | zero => rfl
    | succ k ih => rw [Function.iterate_succ_apply', ih]; rfl
  have hstop : ∀ (s : SchedState) (n : Nat), tickSched^[n] (teardownSched s)
      = { intervalActive := false, invocations := s.invocations } := by
    intro s n
    induction n with
    | zero => rfl
    | succ k ih => rw [Function.iterate_succ_apply', ih]; rfl
  exact ⟨rfl, fun n => by rw [hrun n], fun s n => by rw [hstop s n],
    by rw [hrun 3], rfl⟩
